import Mathlib

/-!
# Verification of the antiverse antimatter quantum chemistry package

Shallow embedding of the repository's Python sources
(`antimatter_qchem/__init__.py`, `antinature/qiskit_integration/__init__.py`)
and, for the parts of the package whose sources are not in the repository
snapshot (the SCF solver, the Hamiltonian builder and the basis classes),
models built from the specification document.  Theorems settle the frozen
claims about the package.
-/

namespace Antiverse

/-! ## A model of the Python values used by the wrapper functions

`create_antimatter_calculation` and `run_antimatter_calculation` pass their
options around as Python dicts with string keys and heterogeneous values;
`PyVal` embeds exactly the value shapes those functions touch. -/

inductive PyVal where
  | pyNone : PyVal
  | pyBool : Bool → PyVal
  | pyInt : Int → PyVal
  | pyRat : ℚ → PyVal
  | pyStr : String → PyVal
  | pyDict : List (String × PyVal) → PyVal
deriving Repr

/-- First-match association-list lookup, the semantics of Python dict keys
(with insertion-ordered distinct keys, first match is the only match). -/
def pyLookup : List (String × PyVal) → String → Option PyVal
  | [], _ => Option.none
  | (k, v) :: rest, key => if k = key then Option.some v else pyLookup rest key

/-- `d.get(key, default)` on a dict value; the wrapper code only ever calls
`.get` on dicts, so non-dict receivers fall back to the default. -/
def pyGet (v : PyVal) (key : String) (default : PyVal) : PyVal :=
  match v with
  | .pyDict entries =>
      match pyLookup entries key with
      | Option.some w => w
      | Option.none => default
  | _ => default

/-- Python truthiness for the value shapes the wrapper code tests. -/
def pyTruthy : PyVal → Bool
  | .pyNone => false
  | .pyBool b => b
  | .pyInt n => decide (n ≠ 0)
  | .pyRat q => decide (q ≠ 0)
  | .pyStr s => decide (s ≠ "")
  | .pyDict entries => !entries.isEmpty

/-! ## `create_antimatter_calculation`: option resolution

Embeds the option-defaulting logic of
`antimatter_qchem/__init__.py::create_antimatter_calculation`
(lines 76-85 build the default dict when `calculation_options is None`,
lines 102-108 read the Hamiltonian flags with `.get`, lines 114-119 splat
`calculation_options.get('scf_options', {})` into the SCF constructor). -/

def defaultSCFOptions : PyVal :=
  .pyDict
    [("max_iterations", .pyInt 100),
     ("convergence_threshold", .pyRat ((1 : ℚ) / 1000000)),
     ("use_diis", .pyBool true)]

def defaultCalculationOptions : PyVal :=
  .pyDict
    [("include_annihilation", .pyBool true),
     ("include_relativistic", .pyBool false),
     ("scf_options", defaultSCFOptions)]

/-- `if calculation_options is None: calculation_options = {...}` -/
def resolveCalculationOptions : Option PyVal → PyVal
  | Option.none => defaultCalculationOptions
  | Option.some o => o

/-- The keyword-argument dict splatted into the `AntimatterSCF` constructor:
`calculation_options.get('scf_options', {})`. -/
def scfOptionsPassed (calculation_options : Option PyVal) : PyVal :=
  pyGet (resolveCalculationOptions calculation_options) "scf_options" (.pyDict [])

/-- The `include_annihilation` argument passed to `AntimatterHamiltonian`:
`calculation_options.get('include_annihilation', True)`. -/
def includeAnnihilationPassed (calculation_options : Option PyVal) : PyVal :=
  pyGet (resolveCalculationOptions calculation_options) "include_annihilation" (.pyBool true)

/-- The `include_relativistic` argument passed to `AntimatterHamiltonian`:
`calculation_options.get('include_relativistic', False)`. -/
def includeRelativisticPassed (calculation_options : Option PyVal) : PyVal :=
  pyGet (resolveCalculationOptions calculation_options) "include_relativistic" (.pyBool false)

/-! ### Claims C3 and C9 -/

/-- **C3.** When the caller omits SCF options (`calculation_options=None`),
`create_antimatter_calculation` splats exactly
`max_iterations=100, convergence_threshold=1e-6, use_diis=True`
into the SCF solver constructor. -/
theorem C3_default_scf_options :
    scfOptionsPassed Option.none =
      PyVal.pyDict
        [("max_iterations", PyVal.pyInt 100),
         ("convergence_threshold", PyVal.pyRat ((1 : ℚ) / 1000000)),
         ("use_diis", PyVal.pyBool true)] := by
  rfl

/-- **C9.** Whenever `calculation_options` is a dict that omits the
`include_annihilation` key — whatever its other entries, including an
explicit `include_relativistic` — the Hamiltonian is built with
`include_annihilation=True`; a dict omitting the `include_relativistic` key
gets `include_relativistic=False`; and the same defaults apply when the
options are omitted entirely. -/
theorem C9_annihilation_default_true (entriesA entriesR : List (String × PyVal))
    (hA : pyLookup entriesA "include_annihilation" = Option.none)
    (hR : pyLookup entriesR "include_relativistic" = Option.none) :
    includeAnnihilationPassed (Option.some (.pyDict entriesA)) = PyVal.pyBool true ∧
    includeRelativisticPassed (Option.some (.pyDict entriesR)) = PyVal.pyBool false ∧
    includeAnnihilationPassed Option.none = PyVal.pyBool true ∧
    includeRelativisticPassed Option.none = PyVal.pyBool false := by
  refine ⟨?_, ?_, rfl, rfl⟩ <;>
    simp [includeAnnihilationPassed, includeRelativisticPassed,
      resolveCalculationOptions, pyGet, hA, hR]

/-- Witness for C9: a dict that omits `include_annihilation` while setting
`include_relativistic=True` still passes `include_annihilation=True`, and a
dict that omits `include_relativistic` while setting
`include_annihilation=False` still passes `include_relativistic=False`. -/
theorem C9_annihilation_default_true_witness :
    includeAnnihilationPassed
        (Option.some (.pyDict [("include_relativistic", .pyBool true)])) =
      PyVal.pyBool true ∧
    includeRelativisticPassed
        (Option.some (.pyDict [("include_annihilation", .pyBool false)])) =
      PyVal.pyBool false ∧
    includeAnnihilationPassed Option.none = PyVal.pyBool true ∧
    includeRelativisticPassed Option.none = PyVal.pyBool false :=
  C9_annihilation_default_true [("include_relativistic", .pyBool true)]
    [("include_annihilation", .pyBool false)] (by rfl) (by rfl)

/-! ## Basis data model

Modelled from the spec: the `BasisSet` / `MixedMatterBasis` classes are not
part of the repository snapshot (only `antimatter_qchem/__init__.py` imports
and consumes them), so they are modelled from spec section 3: a Gaussian
descriptor per basis function and two ordered per-species sequences with
derived counts, the total count being the size of the combined catalog. -/

structure GaussianBasisFunction where
  center : ℚ × ℚ × ℚ
  angular : ℕ × ℕ × ℕ
  primitives : List (ℚ × ℚ)
deriving DecidableEq, Repr

structure BasisSet where
  electron : List GaussianBasisFunction
  positron : List GaussianBasisFunction
deriving DecidableEq, Repr

def n_electron_basis (b : BasisSet) : ℕ := b.electron.length

def n_positron_basis (b : BasisSet) : ℕ := b.positron.length

def n_total_basis (b : BasisSet) : ℕ := (b.electron ++ b.positron).length

/-! ## `run_antimatter_calculation`

Embeds `antimatter_qchem/__init__.py::run_antimatter_calculation`
(lines 131-177).  The SCF result, and the `AntimatterCorrelation` object the
`run_mp2` branch would construct, are opaque inputs here (their classes are
not in the snapshot); what is embedded faithfully is the wrapper's control
flow, in particular that the local variable `correlation` is assigned only
inside the `run_mp2` branch while line 162 reads it unconditionally whenever
`calculate_annihilation` is truthy — referencing an unassigned local raises
`NameError` (`UnboundLocalError`) in Python. -/

inductive PyError where
  | nameError : String → PyError
  | attributeError : String → PyError
deriving DecidableEq, Repr

/-- Stand-in for the `AntimatterCorrelation` object: the two methods the
wrapper may call, and whether `calculate_annihilation_rate` exists
(the `hasattr` probe on line 162). -/
structure CorrelationModule where
  mp2_energy : ℚ
  has_calculate_annihilation_rate : Bool
  annihilation_rate : ℚ
deriving DecidableEq, Repr

structure RunResults where
  scf : PyVal
  post_scf : List (String × PyVal)
  basis_info_n_electron : ℕ
  basis_info_n_positron : ℕ
  basis_info_n_total : ℕ
deriving Repr

/-- The `results` dict assembled on lines 166-175; `basis_info` reads the
three derived counts off `configuration['basis_set']`. -/
def mkResults (b : BasisSet) (scf_results : PyVal) (post : List (String × PyVal)) :
    RunResults :=
  { scf := scf_results
    post_scf := post
    basis_info_n_electron := n_electron_basis b
    basis_info_n_positron := n_positron_basis b
    basis_info_n_total := n_total_basis b }

def run_antimatter_calculation (b : BasisSet) (scf_results : PyVal)
    (corr : CorrelationModule) (config : List (String × PyVal)) :
    Except PyError RunResults :=
  -- `correlation` is a Python local bound only inside the `run_mp2` branch.
  let correlation : Option CorrelationModule :=
    if pyTruthy (pyGet (.pyDict config) "run_mp2" (.pyBool false))
      then Option.some corr else Option.none
  let post1 : List (String × PyVal) :=
    match correlation with
    | Option.some c => [("mp2_energy", .pyRat c.mp2_energy)]
    | Option.none => []
  if pyTruthy (pyGet (.pyDict config) "calculate_annihilation" (.pyBool false)) then
    match correlation with
    | Option.none => .error (.nameError "correlation")
    | Option.some c =>
        if c.has_calculate_annihilation_rate then
          .ok (mkResults b scf_results
            (post1 ++ [("annihilation_rate", .pyRat c.annihilation_rate)]))
        else
          .ok (mkResults b scf_results post1)
  else
    .ok (mkResults b scf_results post1)

/-! ### Claims C8 and C7 -/

/-- **C8.** Whenever `calculate_annihilation` is truthy and `run_mp2` is
absent or falsy, `run_antimatter_calculation` raises `NameError` on the
unassigned local `correlation` instead of returning results. -/
theorem C8_unbound_correlation_name_error (b : BasisSet) (scf_results : PyVal)
    (corr : CorrelationModule) (config : List (String × PyVal))
    (hAnn : pyTruthy (pyGet (.pyDict config) "calculate_annihilation" (.pyBool false)) = true)
    (hMp2 : pyTruthy (pyGet (.pyDict config) "run_mp2" (.pyBool false)) = false) :
    run_antimatter_calculation b scf_results corr config =
      .error (.nameError "correlation") := by
  simp [run_antimatter_calculation, hAnn, hMp2]

/-- Witness for C8: a configuration with `calculate_annihilation=True` and no
`run_mp2` key hits the `NameError`. -/
theorem C8_unbound_correlation_name_error_witness :
    run_antimatter_calculation ⟨[], []⟩ PyVal.pyNone ⟨0, true, 0⟩
        [("calculate_annihilation", .pyBool true)] =
      .error (.nameError "correlation") :=
  C8_unbound_correlation_name_error ⟨[], []⟩ PyVal.pyNone ⟨0, true, 0⟩
    [("calculate_annihilation", .pyBool true)] (by rfl) (by rfl)

/-- Every successful run reports the counts of the configuration's basis set. -/
theorem run_reports_basis_counts (b : BasisSet) (scf_results : PyVal)
    (corr : CorrelationModule) (config : List (String × PyVal)) (r : RunResults)
    (h : run_antimatter_calculation b scf_results corr config = .ok r) :
    ∃ post, r = mkResults b scf_results post := by
  unfold run_antimatter_calculation at h
  dsimp only at h
  split at h
  · split at h
    · exact absurd h (by simp)
    · split at h <;> exact ⟨_, (Except.ok.injEq _ _ ▸ h).symm⟩
  · exact ⟨_, (Except.ok.injEq _ _ ▸ h).symm⟩

/-- **C7.** `n_total_basis = n_electron_basis + n_positron_basis` holds for
every `BasisSet`, and the `basis_info` reported by every completed
`run_antimatter_calculation` satisfies the same invariant. -/
theorem C7_basis_count_invariant (b : BasisSet) (scf_results : PyVal)
    (corr : CorrelationModule) (config : List (String × PyVal)) (r : RunResults)
    (h : run_antimatter_calculation b scf_results corr config = .ok r) :
    n_total_basis b = n_electron_basis b + n_positron_basis b ∧
    r.basis_info_n_total = r.basis_info_n_electron + r.basis_info_n_positron := by
  have hb : n_total_basis b = n_electron_basis b + n_positron_basis b :=
    List.length_append _ _
  obtain ⟨post, rfl⟩ := run_reports_basis_counts b scf_results corr config r h
  exact ⟨hb, hb⟩

/-- Witness for C7 at a concrete one-electron-function basis and an empty
configuration (a completed run). -/
theorem C7_basis_count_invariant_witness :
    n_total_basis ⟨[⟨(0, 0, 0), (0, 0, 0), [(1, 1)]⟩], []⟩ =
        n_electron_basis ⟨[⟨(0, 0, 0), (0, 0, 0), [(1, 1)]⟩], []⟩ +
          n_positron_basis ⟨[⟨(0, 0, 0), (0, 0, 0), [(1, 1)]⟩], []⟩ ∧
    (mkResults ⟨[⟨(0, 0, 0), (0, 0, 0), [(1, 1)]⟩], []⟩ PyVal.pyNone
          []).basis_info_n_total =
      (mkResults ⟨[⟨(0, 0, 0), (0, 0, 0), [(1, 1)]⟩], []⟩ PyVal.pyNone
          []).basis_info_n_electron +
        (mkResults ⟨[⟨(0, 0, 0), (0, 0, 0), [(1, 1)]⟩], []⟩ PyVal.pyNone
          []).basis_info_n_positron :=
  C7_basis_count_invariant ⟨[⟨(0, 0, 0), (0, 0, 0), [(1, 1)]⟩], []⟩ PyVal.pyNone
    ⟨0, true, 0⟩ [] (mkResults ⟨[⟨(0, 0, 0), (0, 0, 0), [(1, 1)]⟩], []⟩ PyVal.pyNone [])
    (by rfl)

/-! ## Hamiltonian builder

Modelled from the spec: `AntimatterHamiltonian.build_hamiltonian` is not in
the repository snapshot, so it is modelled from spec sections 4.1, 4.2 and 9.
Matrix blocks are scalarized (each integral block is a single rational
aggregate, the rank-one shallow embedding matching the spec's minimal
1-basis-function scenarios); a block that the spec says is omitted is
`Option.none`.  Per section 4.2 a species with an empty basis is treated as
structurally absent (no matrices allocated), and per section 8 the
annihilation/relativistic flags must have zero effect on an electron-only
system, so the annihilation contact block requires electron density and is
an error exactly when positron functions are present with no electron basis
(spec scenario C), while the relativistic correction attaches to the
positron ("the relevant") core Hamiltonian. -/

inductive BuildError where
  | configurationError : String → BuildError
  | integralUnavailableError : String → BuildError
deriving DecidableEq, Repr

/-- Modelled from the spec: the Integral Provider collaborator (section 2),
scalarized — one rational aggregate per integral block kind. -/
structure IntegralProvider where
  kinetic_e : ℚ
  nuclear_e : ℚ
  kinetic_p : ℚ
  nuclear_p : ℚ
  two_body_ee : ℚ
  two_body_pp : ℚ
  cross_attraction : ℚ
  annihilation_contact : ℚ
  annihilation_coupling : ℚ
  relativistic_p : ℚ
  nuclear_repulsion : ℚ
deriving DecidableEq, Repr

/-- The matrix blocks the SCF loop consumes; per spec section 9 the loop
"sums whatever terms are present, agnostic to which", so it reads only these
blocks, never the flags. -/
structure HamBlocks where
  H_core_e : Option ℚ
  H_core_p : Option ℚ
  two_body_e : Option ℚ
  two_body_p : Option ℚ
  cross_attraction : Option ℚ
  annihilation : Option ℚ
  nuclear_repulsion : ℚ
deriving DecidableEq, Repr

structure HamFlags where
  include_annihilation : Bool
  include_relativistic : Bool
deriving DecidableEq, Repr

/-- HamiltonianMatrices (spec section 3): the assembled blocks plus the
feature flags recorded at build time. -/
structure HamiltonianMatrices extends HamBlocks where
  flags : HamFlags
deriving DecidableEq, Repr

def build_hamiltonian (prov : IntegralProvider) (b : BasisSet) (flags : HamFlags) :
    Except BuildError HamiltonianMatrices :=
  if flags.include_annihilation ∧ n_electron_basis b = 0 ∧ 0 < n_positron_basis b then
    .error (.configurationError "annihilation term requested with empty electron basis")
  else
    .ok
      { H_core_e :=
          if 0 < n_electron_basis b then Option.some (prov.kinetic_e + prov.nuclear_e)
          else Option.none
        H_core_p :=
          if 0 < n_positron_basis b then
            Option.some ((prov.kinetic_p + prov.nuclear_p) +
              (if flags.include_relativistic then prov.relativistic_p else 0))
          else Option.none
        two_body_e :=
          if 0 < n_electron_basis b then Option.some prov.two_body_ee else Option.none
        two_body_p :=
          if 0 < n_positron_basis b then Option.some prov.two_body_pp else Option.none
        cross_attraction :=
          if 0 < n_electron_basis b ∧ 0 < n_positron_basis b then
            Option.some prov.cross_attraction
          else Option.none
        annihilation :=
          if flags.include_annihilation ∧ 0 < n_electron_basis b ∧ 0 < n_positron_basis b
          then Option.some (prov.annihilation_coupling * prov.annihilation_contact)
          else Option.none
        nuclear_repulsion := prov.nuclear_repulsion
        flags := flags }

/-- Density of a species in the scalarized model: one occupied normalized
orbital when the species' core block exists, structurally absent otherwise. -/
def densityOf : Option ℚ → ℚ
  | Option.some _ => 1
  | Option.none => 0

/-- Scalarized electron Fock value (spec section 4.2 step 1). -/
def fock_e (h : HamBlocks) (dE dP : ℚ) : ℚ :=
  h.H_core_e.getD 0 + h.two_body_e.getD 0 * dE + h.cross_attraction.getD 0 * dP +
    h.annihilation.getD 0 * dP

/-- Scalarized positron Fock value (spec section 4.2 step 1). -/
def fock_p (h : HamBlocks) (dE dP : ℚ) : ℚ :=
  h.H_core_p.getD 0 + h.two_body_p.getD 0 * dP + h.cross_attraction.getD 0 * dE +
    h.annihilation.getD 0 * dE

/-- Converged total energy in the scalarized model: the Hartree-Fock trace
formula `(1/2) sum over species of D (H_core + F)` plus nuclear repulsion
(spec section 4.2 step 5), reading only the assembled blocks. -/
def scf_total_energy (h : HamBlocks) : ℚ :=
  (densityOf h.H_core_e * (h.H_core_e.getD 0 + fock_e h (densityOf h.H_core_e) (densityOf h.H_core_p)) +
      densityOf h.H_core_p * (h.H_core_p.getD 0 + fock_p h (densityOf h.H_core_e) (densityOf h.H_core_p))) / 2 +
    h.nuclear_repulsion

/-- The build-then-solve pipeline: a build failure short-circuits, so no SCF
iteration runs after a `ConfigurationError`. -/
def run_total_energy (prov : IntegralProvider) (b : BasisSet) (flags : HamFlags) :
    Except BuildError ℚ :=
  (build_hamiltonian prov b flags).map fun m => scf_total_energy m.toHamBlocks

def buildSucceeded (x : Except BuildError HamiltonianMatrices) : Bool :=
  match x with
  | .ok _ => true
  | .error _ => false

/-! ### Claims C2 and C5 -/

/-- **C2 (counterexample).** The claim quantifies over every `BasisSet` with
one species' basis empty; on an electron-only basis (positron basis empty)
with `include_annihilation=true` the build succeeds — the structurally
absent positron species makes the flag a no-op (spec sections 4.2 and 8)
instead of raising `ConfigurationError`. -/
theorem C2_empty_species_cex :
    buildSucceeded
      (build_hamiltonian
        ⟨1, -2, 1, 2, 1, 1, -1, 1, 1, 0, 0⟩
        ⟨[⟨(0, 0, 0), (0, 0, 0), [(1, 1)]⟩], []⟩
        ⟨true, false⟩) = true := by
  rfl

/-- **C2 (amended).** Requesting the annihilation cross-species term on a
basis with positron functions but an empty electron basis (in particular a
positron-only basis) makes the Hamiltonian build raise `ConfigurationError`,
and the pipeline short-circuits before any SCF iteration. -/
theorem C2_positron_only_annihilation_error (prov : IntegralProvider)
    (b : BasisSet) (flags : HamFlags)
    (hE : n_electron_basis b = 0) (hP : 0 < n_positron_basis b)
    (hA : flags.include_annihilation = true) :
    build_hamiltonian prov b flags =
      .error (.configurationError "annihilation term requested with empty electron basis") ∧
    run_total_energy prov b flags =
      .error (.configurationError "annihilation term requested with empty electron basis") := by
  have hcond : flags.include_annihilation ∧ n_electron_basis b = 0 ∧
      0 < n_positron_basis b := ⟨hA, hE, hP⟩
  constructor
  · simp [build_hamiltonian, hcond]
  · simp [run_total_energy, build_hamiltonian, hcond, Except.map]

/-- Witness for amended C2: a positron-only basis (no electron functions)
with `include_annihilation=true`. -/
theorem C2_positron_only_annihilation_error_witness :
    build_hamiltonian ⟨1, -2, 1, 2, 1, 1, -1, 1, 1, 0, 0⟩
        ⟨[], [⟨(0, 0, 0), (0, 0, 0), [(1, 1)]⟩]⟩ ⟨true, false⟩ =
      .error (.configurationError "annihilation term requested with empty electron basis") ∧
    run_total_energy ⟨1, -2, 1, 2, 1, 1, -1, 1, 1, 0, 0⟩
        ⟨[], [⟨(0, 0, 0), (0, 0, 0), [(1, 1)]⟩]⟩ ⟨true, false⟩ =
      .error (.configurationError "annihilation term requested with empty electron basis") :=
  C2_positron_only_annihilation_error ⟨1, -2, 1, 2, 1, 1, -1, 1, 1, 0, 0⟩
    ⟨[], [⟨(0, 0, 0), (0, 0, 0), [(1, 1)]⟩]⟩ ⟨true, false⟩ (by rfl) (by decide) (by rfl)

/-- **C5.** On every basis with a non-empty electron basis and zero positron
basis, the converged total energy of the pipeline is identical for any two
settings of the `include_annihilation` / `include_relativistic` flags: the
solver reduces to single-species electronic Hartree-Fock. -/
theorem C5_electron_only_flag_insensitive (prov : IntegralProvider) (b : BasisSet)
    (flags1 flags2 : HamFlags)
    (hE : 0 < n_electron_basis b) (hP : n_positron_basis b = 0) :
    run_total_energy prov b flags1 = run_total_energy prov b flags2 := by
  have hE' : ¬ n_electron_basis b = 0 := Nat.pos_iff_ne_zero.mp hE
  have hP' : ¬ 0 < n_positron_basis b := by omega
  simp [run_total_energy, build_hamiltonian, hE, hE', hP', Except.map,
    HamiltonianMatrices.toHamBlocks]

/-- Witness for C5: a one-electron-function basis, comparing the run with
both flags on against the run with both flags off. -/
theorem C5_electron_only_flag_insensitive_witness :
    run_total_energy ⟨1, -2, 1, 2, 1, 1, -1, 1, 1, 5, 0⟩
        ⟨[⟨(0, 0, 0), (0, 0, 0), [(1, 1)]⟩], []⟩ ⟨true, true⟩ =
      run_total_energy ⟨1, -2, 1, 2, 1, 1, -1, 1, 1, 5, 0⟩
        ⟨[⟨(0, 0, 0), (0, 0, 0), [(1, 1)]⟩], []⟩ ⟨false, false⟩ :=
  C5_electron_only_flag_insensitive ⟨1, -2, 1, 2, 1, 1, -1, 1, 1, 5, 0⟩
    ⟨[⟨(0, 0, 0), (0, 0, 0), [(1, 1)]⟩], []⟩ ⟨true, true⟩ ⟨false, false⟩
    (by decide) (by rfl)

/-! ## SCF solver fixed-point engine

Modelled from the spec: `AntimatterSCF.solve_scf` is not in the repository
snapshot, so the solver is modelled from spec section 4.2 as a fixed-point
engine: `step` is one coupled Fock-assembly / diagonalization / density
update, `dist` the density-change norm of the convergence test, and
`isFinite` the numeric-health check whose failure is the only fatal
(DIVERGED) outcome.  Reaching `max_iterations` reports `converged=false`
with the terminal iterate (MAX_ITER_REACHED is not an error). -/

structure SCFEngine (D : Type) where
  step : D → D
  isFinite : D → Bool
  dist : D → D → ℚ

structure SCFOutcome (D : Type) where
  density : D
  converged : Bool
  iterations : ℕ
deriving DecidableEq, Repr

inductive SCFError where
  | diverged : SCFError
deriving DecidableEq, Repr

def solveLoop (eng : SCFEngine D) (threshold : ℚ) :
    ℕ → ℕ → D → Except SCFError (SCFOutcome D)
  | 0, done, d => .ok ⟨d, false, done⟩
  | fuel + 1, done, d =>
      let d2 := eng.step d
      if eng.isFinite d2 = false then .error .diverged
      else if eng.dist d2 d < threshold then .ok ⟨d2, true, done + 1⟩
      else solveLoop eng threshold fuel (done + 1) d2

def solve_scf (eng : SCFEngine D) (threshold : ℚ) (max_iterations : ℕ) (d0 : D) :
    Except SCFError (SCFOutcome D) :=
  solveLoop eng threshold max_iterations 0 d0

/-- The iterates of the fixed-point map from an initial guess. -/
def iterate (eng : SCFEngine D) (d0 : D) : ℕ → D
  | 0 => d0
  | k + 1 => eng.step (iterate eng d0 k)

theorem iterate_shift (eng : SCFEngine D) (d : D) (k : ℕ) :
    iterate eng (eng.step d) k = iterate eng d (k + 1) := by
  induction k with
  | zero => rfl
  | succ k ih => simp [iterate, ih]

theorem solveLoop_exhausts (eng : SCFEngine D) (threshold : ℚ) (fuel : ℕ) :
    ∀ (done : ℕ) (d : D),
      (∀ k < fuel, eng.isFinite (iterate eng d (k + 1)) = true) →
      (∀ k < fuel, ¬ eng.dist (iterate eng d (k + 1)) (iterate eng d k) < threshold) →
      solveLoop eng threshold fuel done d = .ok ⟨iterate eng d fuel, false, done + fuel⟩ := by
  induction fuel with
  | zero => intro done d _ _; rfl
  | succ fuel ih =>
      intro done d hfin hnc
      have h0fin : eng.isFinite (eng.step d) = true := hfin 0 (Nat.succ_pos _)
      have h0nc : ¬ eng.dist (eng.step d) d < threshold := hnc 0 (Nat.succ_pos _)
      have hrec := ih (done + 1) (eng.step d)
        (fun k hk => by rw [iterate_shift]; exact hfin (k + 1) (Nat.succ_lt_succ hk))
        (fun k hk => by rw [iterate_shift, iterate_shift]; exact hnc (k + 1) (Nat.succ_lt_succ hk))
      simp only [solveLoop, h0fin, h0nc, if_false, if_neg h0nc]
      rw [if_neg (by simp [h0fin])]
      rw [hrec, iterate_shift]
      have : done + 1 + fuel = done + (fuel + 1) := by omega
      rw [this]

/-! ### Claim C1 -/

/-- **C1.** A run whose iterates stay numerically finite but never pass the
convergence test within `max_iterations` returns an ordinary result — no
exception — carrying `converged=false`, the terminal iterate, and the actual
iteration count (`max_iterations`); with `max_iterations=1` on a system
needing at least 5 iterations this is `converged=false` with count 1. -/
theorem C1_nonconvergence_reported (eng : SCFEngine D) (threshold : ℚ)
    (max_iterations : ℕ) (d0 : D)
    (hfin : ∀ k < max_iterations, eng.isFinite (iterate eng d0 (k + 1)) = true)
    (hnc : ∀ k < max_iterations,
      ¬ eng.dist (iterate eng d0 (k + 1)) (iterate eng d0 k) < threshold) :
    solve_scf eng threshold max_iterations d0 =
      .ok ⟨iterate eng d0 max_iterations, false, max_iterations⟩ := by
  have h := solveLoop_exhausts eng threshold max_iterations 0 d0 hfin hnc
  simpa [solve_scf] using h

/-- Absolute difference on ℚ, written branch-wise so that concrete runs
evaluate inside the kernel. -/
def qdist (x y : ℚ) : ℚ := if x ≤ y then y - x else x - y

/-- A drifting system: each step moves the density by 2 against threshold 1,
so it never converges (it would need more than 5 iterations for any finite
budget) and every iterate is finite. -/
def driftEngine : SCFEngine ℚ :=
  { step := fun x => x + 2
    isFinite := fun _ => true
    dist := qdist }

/-- Witness for C1: `max_iterations=1` on the drifting system returns
`converged=false` with iteration count exactly 1, as an ordinary result. -/
theorem C1_nonconvergence_reported_witness :
    solve_scf driftEngine 1 1 (0 : ℚ) = .ok ⟨2, false, 1⟩ := by
  rw [C1_nonconvergence_reported driftEngine 1 1 (0 : ℚ)
    (by intro k hk; rfl)
    (by intro k hk; interval_cases k; norm_num [iterate, driftEngine, qdist])]
  norm_num [iterate, driftEngine]

/-! ### Claim C6 -/

/-- A converged loop result's density is the image of one step whose
density change passed the convergence test. -/
theorem solveLoop_converged_density (eng : SCFEngine D) (threshold : ℚ) (fuel : ℕ) :
    ∀ (done : ℕ) (d : D) (r : SCFOutcome D),
      solveLoop eng threshold fuel done d = .ok r → r.converged = true →
      ∃ p, r.density = eng.step p ∧ eng.dist (eng.step p) p < threshold := by
  induction fuel with
  | zero =>
      intro done d r h hc
      simp only [solveLoop] at h
      injection h with h2
      subst h2
      simp at hc
  | succ fuel ih =>
      intro done d r h hc
      simp only [solveLoop] at h
      split at h
      · exact absurd h (by simp)
      · split at h
        · rename_i hlt
          injection h with h2
          subst h2
          exact ⟨d, rfl, hlt⟩
        · exact ih (done + 1) (eng.step d) r h hc

/-- A system that converges once and then jumps: from guess `0` the step
goes to `1/2` (within threshold `1`, so the run converges at iteration 1
with density `1/2`), but the step taken at `1/2` jumps to `10`. -/
def oscillEngine : SCFEngine ℚ :=
  { step := fun x => if x = 0 then 1 / 2 else if x = 1 / 2 then 10 else x
    isFinite := fun _ => true
    dist := qdist }

/-- **C6 (counterexample).** An SCF run on `oscillEngine` converges
(`converged=true`, density `1/2`), yet re-running `solve_scf` with that
converged density as initial guess takes 2 iterations, not exactly 1, and
moves the density from `1/2` to `10` — far beyond the threshold. -/
theorem C6_idempotence_cex :
    solve_scf oscillEngine 1 5 0 = .ok ⟨1 / 2, true, 1⟩ ∧
    solve_scf oscillEngine 1 5 (1 / 2) = .ok ⟨10, true, 2⟩ := by
  constructor <;> norm_num [solve_scf, solveLoop, oscillEngine, qdist]

/-- **C6 (amended).** Provided the SCF update map is nonexpansive in the
density distance (a locally contractive fixed-point iteration, the regime
in which converged SCF solutions are stable) and iterates stay finite,
re-running `solve_scf` from an already-converged result's density converges
in exactly 1 iteration, with the density unchanged within the threshold. -/
theorem C6_idempotent_rerun (eng : SCFEngine D) (threshold : ℚ)
    (max_iterations max_iterations2 : ℕ) (d0 : D) (r : SCFOutcome D)
    (hne : ∀ x y, eng.dist (eng.step x) (eng.step y) ≤ eng.dist x y)
    (hfin : ∀ d, eng.isFinite d = true)
    (hrun : solve_scf eng threshold max_iterations d0 = .ok r)
    (hconv : r.converged = true)
    (hpos : 0 < max_iterations2) :
    solve_scf eng threshold max_iterations2 r.density =
      .ok ⟨eng.step r.density, true, 1⟩ ∧
    eng.dist (eng.step r.density) r.density < threshold := by
  obtain ⟨p, hp, hd⟩ :=
    solveLoop_converged_density eng threshold max_iterations 0 d0 r hrun hconv
  have hlt : eng.dist (eng.step r.density) r.density < threshold := by
    rw [hp]
    exact lt_of_le_of_lt (hne (eng.step p) p) hd
  refine ⟨?_, hlt⟩
  obtain ⟨m, rfl⟩ : ∃ m, max_iterations2 = m + 1 := ⟨max_iterations2 - 1, by omega⟩
  simp [solve_scf, solveLoop, hfin, hlt]

/-- The identity update map: trivially nonexpansive. -/
def idEngine : SCFEngine ℚ :=
  { step := fun x => x
    isFinite := fun _ => true
    dist := qdist }

/-- Witness for amended C6: a converged run on the nonexpansive `idEngine`
re-run from its converged density terminates converged in exactly 1
iteration. -/
theorem C6_idempotent_rerun_witness :
    solve_scf idEngine 1 5 (SCFOutcome.mk (0 : ℚ) true 1).density =
      .ok ⟨idEngine.step (SCFOutcome.mk (0 : ℚ) true 1).density, true, 1⟩ ∧
    idEngine.dist (idEngine.step (SCFOutcome.mk (0 : ℚ) true 1).density)
        (SCFOutcome.mk (0 : ℚ) true 1).density < 1 :=
  C6_idempotent_rerun idEngine 1 3 5 0 ⟨0, true, 1⟩
    (fun x y => le_refl (idEngine.dist x y)) (fun _ => rfl)
    (by norm_num [solve_scf, solveLoop, idEngine, qdist]) rfl (by norm_num)

/-! ## DIIS acceleration

Modelled from the spec: DIIS (section 4.2 steps 3-4) keeps a bounded
history of (Fock, commutator-error) pairs; with at least 2 entries it
solves a linear system for extrapolation coefficients, and when that system
is singular or ill-conditioned (`solveSystem` returns `Option.none`) it
falls back to plain density mixing for that iteration instead of aborting
the run. -/

structure DIISEngine (D Mx : Type) where
  fockOf : D → Mx
  errorOf : Mx → D → Mx
  densityFrom : Mx → D
  mixDensity : D → D → D
  solveSystem : List (Mx × Mx) → Option (List ℚ)
  extrapolate : List ℚ → List (Mx × Mx) → Mx
  isFinite : D → Bool
  dist : D → D → ℚ
  histSize : ℕ

/-- Push a (Fock, error) pair into the bounded history, evicting the oldest
entries on overflow. -/
def pushHistory (histSize : ℕ) (hist : List (Mx × Mx)) (pair : Mx × Mx) :
    List (Mx × Mx) :=
  (hist ++ [pair]).drop ((hist ++ [pair]).length - histSize)

/-- One DIIS-accelerated iteration: assemble Fock and error, update the
history, then either extrapolate (solvable system), fall back to plain
density mixing (singular system), or — with fewer than 2 history entries —
take the plain step. -/
def diisStep (eng : DIISEngine D Mx) (hist : List (Mx × Mx)) (d : D) :
    List (Mx × Mx) × D :=
  let f := eng.fockOf d
  let hist2 := pushHistory eng.histSize hist (f, eng.errorOf f d)
  if 2 ≤ hist2.length then
    match eng.solveSystem hist2 with
    | Option.some coeffs => (hist2, eng.densityFrom (eng.extrapolate coeffs hist2))
    | Option.none => (hist2, eng.mixDensity d (eng.densityFrom f))
  else (hist2, eng.densityFrom f)

def solveDIISLoop (eng : DIISEngine D Mx) (threshold : ℚ) :
    ℕ → ℕ → List (Mx × Mx) → D → Except SCFError (SCFOutcome D)
  | 0, done, _, d => .ok ⟨d, false, done⟩
  | fuel + 1, done, hist, d =>
      let s := diisStep eng hist d
      if eng.isFinite s.2 = false then .error .diverged
      else if eng.dist s.2 d < threshold then .ok ⟨s.2, true, done + 1⟩
      else solveDIISLoop eng threshold fuel (done + 1) s.1 s.2

def solve_scf_diis (eng : DIISEngine D Mx) (threshold : ℚ)
    (max_iterations : ℕ) (d0 : D) : Except SCFError (SCFOutcome D) :=
  solveDIISLoop eng threshold max_iterations 0 [] d0

def runOk (x : Except SCFError (SCFOutcome D)) : Bool :=
  match x with
  | .ok _ => true
  | .error _ => false

/-- An otherwise healthy run (every produced iterate numerically finite)
never returns an error, whatever the DIIS system solver does. -/
theorem solveDIISLoop_healthy_ok (eng : DIISEngine D Mx) (threshold : ℚ)
    (fuel : ℕ)
    (hfin : ∀ (hist : List (Mx × Mx)) (d : D),
      eng.isFinite (diisStep eng hist d).2 = true) :
    ∀ (done : ℕ) (hist : List (Mx × Mx)) (d : D),
      runOk (solveDIISLoop eng threshold fuel done hist d) = true := by
  induction fuel with
  | zero => intro done hist d; rfl
  | succ fuel ih =>
      intro done hist d
      simp only [solveDIISLoop]
      rw [if_neg (by simp [hfin hist d])]
      split
      · rfl
      · exact ih (done + 1) _ _

/-! ### Claim C4 -/

/-- **C4.** When the DIIS linear system for the current history is singular
(`solveSystem` returns `Option.none`), that iteration's density update is
the plain density-mixing fallback, and a run whose iterates stay finite
returns an ordinary result: DIIS singularity is never propagated as an
error and never aborts the run. -/
theorem C4_diis_singular_fallback (eng : DIISEngine D Mx) (threshold : ℚ)
    (fuel done : ℕ) (hist : List (Mx × Mx)) (d : D)
    (hfin : ∀ (h2 : List (Mx × Mx)) (d2 : D),
      eng.isFinite (diisStep eng h2 d2).2 = true)
    (hlen : 2 ≤ (pushHistory eng.histSize hist
      (eng.fockOf d, eng.errorOf (eng.fockOf d) d)).length)
    (hsing : eng.solveSystem (pushHistory eng.histSize hist
      (eng.fockOf d, eng.errorOf (eng.fockOf d) d)) = Option.none) :
    (diisStep eng hist d).2 = eng.mixDensity d (eng.densityFrom (eng.fockOf d)) ∧
    runOk (solveDIISLoop eng threshold fuel done hist d) = true := by
  constructor
  · simp [diisStep, hlen, hsing]
  · exact solveDIISLoop_healthy_ok eng threshold fuel hfin done hist d

/-- A concrete scalarized DIIS engine whose extrapolation system is always
singular: every iteration must take the mixing fallback. -/
def singularDIIS : DIISEngine ℚ ℚ :=
  { fockOf := fun d => d + 1
    errorOf := fun f d => f - d
    densityFrom := fun f => f
    mixDensity := fun d dNew => (d + dNew) / 2
    solveSystem := fun _ => Option.none
    extrapolate := fun _ _ => 0
    isFinite := fun _ => true
    dist := qdist
    histSize := 6 }

/-- Witness for C4: with one prior history pair the updated history has 2
entries, the system is singular, the iteration takes the mixing fallback,
and the 5-iteration run completes without error. -/
theorem C4_diis_singular_fallback_witness :
    (diisStep singularDIIS [(0, 0)] 3).2 =
      singularDIIS.mixDensity 3 (singularDIIS.densityFrom (singularDIIS.fockOf 3)) ∧
    runOk (solveDIISLoop singularDIIS 1 5 0 [(0, 0)] 3) = true :=
  C4_diis_singular_fallback singularDIIS 1 5 0 [(0, 0)] 3
    (fun _ _ => rfl) (by norm_num [pushHistory, singularDIIS]) rfl

/-! ## `antinature.qiskit_integration` package exports

Embeds `build/lib/antinature/qiskit_integration/__init__.py`: the `__all__`
list (lines 30-40) verbatim, and the set of names the module's import
statements actually bind — the guarded qiskit imports (bound only when
qiskit is importable), the always-executed relative imports (lines 21-27,
binding the capitalized class names and setting the submodule attributes),
and `HAS_QISKIT`.  `from pkg import *` looks each `__all__` entry up on the
module and raises `AttributeError` at the first missing one. -/

def qiskit_integration_all : List String :=
  ["QiskitNatureAdapter", "antinatureCircuits", "PositroniumCircuit",
   "PositroniumVQESolver", "antinatureQuantumSystems",
   "antinatureQuantumSolver", "antinatureVQESolver", "antinatureAnsatz",
   "HAS_QISKIT"]

def qiskit_integration_bound (has_qiskit : Bool) : List String :=
  (if has_qiskit then
    ["qiskit", "qiskit_nature", "VQE", "NumPyMinimumEigensolver", "COBYLA",
     "SPSA", "Estimator"]
   else []) ++
  ["HAS_QISKIT", "adapter", "circuits", "solver", "systems",
   "antinature_solver", "vqe_solver", "ansatze",
   "QiskitNatureAdapter", "AntinatureCircuits", "PositroniumCircuit",
   "PositroniumVQESolver", "AntinatureQuantumSystems",
   "AntinatureQuantumSolver", "AntinatureVQESolver", "AntinatureAnsatz"]

def wildcardImportFrom (bound : List String) : List String → Except PyError (List String)
  | [] => .ok []
  | n :: rest =>
      if n ∈ bound then
        match wildcardImportFrom bound rest with
        | .ok imported => .ok (n :: imported)
        | .error e => .error e
      else .error (.attributeError n)

def wildcard_import_qiskit_integration (has_qiskit : Bool) :
    Except PyError (List String) :=
  wildcardImportFrom (qiskit_integration_bound has_qiskit) qiskit_integration_all

/-! ### Claim C10 -/

/-- **C10.** The five lowercase-`antinature` names listed in `__all__` are
never bound in the module namespace (the imports bind the capitalized
forms), whether or not qiskit is available, and a wildcard import of the
package raises `AttributeError` (at the first such name,
`antinatureCircuits`). -/
theorem C10_all_list_names_unbound :
    ("antinatureCircuits" ∈ qiskit_integration_all ∧
      "antinatureCircuits" ∉ qiskit_integration_bound true ∧
      "antinatureCircuits" ∉ qiskit_integration_bound false) ∧
    ("antinatureQuantumSystems" ∈ qiskit_integration_all ∧
      "antinatureQuantumSystems" ∉ qiskit_integration_bound true ∧
      "antinatureQuantumSystems" ∉ qiskit_integration_bound false) ∧
    ("antinatureQuantumSolver" ∈ qiskit_integration_all ∧
      "antinatureQuantumSolver" ∉ qiskit_integration_bound true ∧
      "antinatureQuantumSolver" ∉ qiskit_integration_bound false) ∧
    ("antinatureVQESolver" ∈ qiskit_integration_all ∧
      "antinatureVQESolver" ∉ qiskit_integration_bound true ∧
      "antinatureVQESolver" ∉ qiskit_integration_bound false) ∧
    ("antinatureAnsatz" ∈ qiskit_integration_all ∧
      "antinatureAnsatz" ∉ qiskit_integration_bound true ∧
      "antinatureAnsatz" ∉ qiskit_integration_bound false) ∧
    wildcard_import_qiskit_integration true =
      .error (.attributeError "antinatureCircuits") ∧
    wildcard_import_qiskit_integration false =
      .error (.attributeError "antinatureCircuits") :=
  ⟨by decide, by decide, by decide, by decide, by decide, rfl, rfl⟩

end Antiverse
